import Mathlib

/-!
Verification of the AgenticCFO file-intake pipeline (backend/app/intake):
template detection (`template_detector.py`), column mapping
(`column_mapper.py`), data-quality validation (`dq_validator.py`) and file
parsing (`file_parser.py`).

Python floats are modelled as exact rationals (`ℚ`); the score weights and
thresholds in the source are short decimal literals, and every property
checked here is about the comparison/argmax structure, not about
floating-point rounding.  Strings are Lean `String`s; `str.lower` is
modelled by `Char.toLower` (ASCII case folding, which covers the entire
synonym catalog) and `str.strip` by dropping `Char.isWhitespace`
characters from both ends of the character list.
-/

namespace AgenticCFO

/-- Python's `max` on two rationals, written so that it evaluates inside
the kernel (`Max.max` on `ℚ` goes through the lattice structure and does
not reduce definitionally). -/
def maxQ (a b : ℚ) : ℚ :=
  if a ≤ b then b else a

/-! ### difflib.SequenceMatcher

`ColumnMapper._calculate_column_similarity` calls
`SequenceMatcher(None, a, b).ratio()` from the Python standard library.
The embedding below follows CPython's `difflib.py`: the `b2j` occurrence
table with the autojunk heuristic (elements of `b` occurring more than
`len(b)//100 + 1` times are dropped from the table when `len(b) >= 200`),
`find_longest_match` (with `isjunk = None` the junk set is empty, so the
two junk-extension loops are no-ops and only the plain extension loops
remain), the recursive decomposition of `get_matching_blocks`, and
`ratio() = 2*M / (len(a)+len(b))`.
-/

namespace SeqMatcher

/-- Occurrence positions of character `c` in `b`, ascending (difflib's
`b2j[c]` before junk removal). -/
def occIndices (b : List Char) (c : Char) : List Nat :=
  (List.range b.length).filter (fun j => b.getD j ' ' = c)

/-- The autojunk rule of `SequenceMatcher.__chain_b`. -/
def isPopular (b : List Char) (c : Char) : Bool :=
  decide (200 ≤ b.length) && decide (b.length / 100 + 1 < (occIndices b c).length)

/-- difflib's `b2j.get(elt, [])` after autojunk removal. -/
def b2j (b : List Char) (c : Char) : List Nat :=
  if isPopular b c then [] else occIndices b c

/-- Current best matching block `(besti, bestj, bestsize)`. -/
structure MatchBlock where
  besti : Nat
  bestj : Nat
  bestsize : Nat
  deriving DecidableEq

/-- Inner loop of `find_longest_match` for one position `i` of `a`:
threads the `newj2len` table and the best block over the admissible
`j` positions.  In Python the `j < blo` entries are skipped by `continue`
and the scan `break`s at the first `j >= bhi`; since `b2j` lists are
ascending this visits exactly the `j` with `blo <= j < bhi`. -/
def flmInner (i : Nat) (j2len : Nat → Nat) (js : List Nat) (st : MatchBlock) :
    (Nat → Nat) × MatchBlock :=
  js.foldl
    (fun acc j =>
      let k := (if j = 0 then 0 else j2len (j - 1)) + 1
      let tbl := fun j' => if j' = j then k else acc.1 j'
      let st' := if acc.2.bestsize < k then ⟨i + 1 - k, j + 1 - k, k⟩ else acc.2
      (tbl, st'))
    ((fun _ => 0), st)

/-- The dynamic-programming phase of `find_longest_match` over
`a[alo:ahi]` and `b[blo:bhi]`. -/
def flmLoop (a b : List Char) (alo ahi blo bhi : Nat) : MatchBlock :=
  (((List.range ahi).drop alo).foldl
    (fun acc i =>
      let js := ((b2j b (a.getD i ' ')).filter (fun j => blo ≤ j)).takeWhile
        (fun j => j < bhi)
      flmInner i acc.1 js acc.2)
    ((fun _ => 0), ⟨alo, blo, 0⟩)).2

/-- Left extension loop of `find_longest_match`
(`while besti > alo and bestj > blo and a[besti-1] == b[bestj-1]`). -/
def extendLeft (a b : List Char) (alo blo : Nat) : Nat → MatchBlock → MatchBlock
  | 0, st => st
  | fuel + 1, st =>
    if alo < st.besti ∧ blo < st.bestj ∧
        a.getD (st.besti - 1) ' ' = b.getD (st.bestj - 1) ' ' then
      extendLeft a b alo blo fuel ⟨st.besti - 1, st.bestj - 1, st.bestsize + 1⟩
    else st

/-- Right extension loop of `find_longest_match`. -/
def extendRight (a b : List Char) (ahi bhi : Nat) : Nat → MatchBlock → MatchBlock
  | 0, st => st
  | fuel + 1, st =>
    if st.besti + st.bestsize < ahi ∧ st.bestj + st.bestsize < bhi ∧
        a.getD (st.besti + st.bestsize) ' ' = b.getD (st.bestj + st.bestsize) ' ' then
      extendRight a b ahi bhi fuel ⟨st.besti, st.bestj, st.bestsize + 1⟩
    else st

/-- `find_longest_match(alo, ahi, blo, bhi)` with `isjunk = None`:
the junk set is empty, so only the two non-junk extension loops act. -/
def findLongestMatch (a b : List Char) (alo ahi blo bhi : Nat) : MatchBlock :=
  let st := flmLoop a b alo ahi blo bhi
  let st := extendLeft a b alo blo st.besti st
  extendRight a b ahi bhi (ahi - (st.besti + st.bestsize)) st

/-- Total size of all matching blocks (the recursion of
`get_matching_blocks`; only the sum of sizes feeds `ratio`).  The fuel is
an upper bound on the recursion depth: each recursive call shrinks the
combined interval length by at least the (positive) block size. -/
def matchSum (a b : List Char) : Nat → Nat → Nat → Nat → Nat → Nat
  | 0, _, _, _, _ => 0
  | fuel + 1, alo, ahi, blo, bhi =>
    let m := findLongestMatch a b alo ahi blo bhi
    if m.bestsize = 0 then 0
    else
      m.bestsize + matchSum a b fuel alo m.besti blo m.bestj +
        matchSum a b fuel (m.besti + m.bestsize) ahi (m.bestj + m.bestsize) bhi

/-- `SequenceMatcher(None, a, b).ratio()` as an exact rational. -/
def ratioQ (a b : List Char) : ℚ :=
  let total := a.length + b.length
  if total = 0 then 1
  else (2 * matchSum a b (total + 1) 0 a.length 0 b.length : ℚ) / (total : ℚ)

end SeqMatcher

/-! ### ColumnMapper (`backend/app/intake/column_mapper.py`) -/

namespace ColumnMapper

/-- `TEMPLATE_SCHEMAS`: for each template type, the canonical fields in
declaration order, each with its raw-header synonym list. -/
def TEMPLATE_SCHEMAS : List (String × List (String × List String)) :=
  [("BankStatement",
    [("transaction_date",
      ["date", "trans date", "transaction date", "posting date", "value date",
       "post date", "dt"]),
     ("description",
      ["description", "desc", "narrative", "details", "transaction details",
       "memo", "reference"]),
     ("debit_amount",
      ["debit", "withdrawal", "withdrawals", "outgoing", "payments", "dr",
       "amount dr", "debit amount"]),
     ("credit_amount",
      ["credit", "deposit", "deposits", "incoming", "receipts", "cr",
       "amount cr", "credit amount"]),
     ("balance",
      ["balance", "running balance", "ending balance", "closing balance",
       "bal", "available balance"]),
     ("reference_number",
      ["reference", "ref", "check number", "cheque number", "transaction id",
       "trans id"])]),
   ("TrialBalance",
    [("account_code",
      ["account", "account number", "account no", "gl account", "gl code",
       "acct"]),
     ("account_name",
      ["account name", "account description", "description", "name",
       "gl name"]),
     ("debit_amount", ["debit", "dr", "debit balance", "debit amount"]),
     ("credit_amount", ["credit", "cr", "credit balance", "credit amount"]),
     ("balance", ["balance", "ending balance", "net balance"])]),
   ("AP_OpenItems",
    [("vendor_name", ["vendor", "vendor name", "supplier", "supplier name",
       "payee"]),
     ("vendor_code", ["vendor code", "vendor id", "vendor number",
       "supplier code", "supplier id"]),
     ("invoice_number", ["invoice", "invoice number", "invoice no", "inv no",
       "document number"]),
     ("invoice_date", ["invoice date", "inv date", "document date", "date"]),
     ("due_date", ["due date", "payment due", "maturity date"]),
     ("amount", ["amount", "invoice amount", "total", "open amount",
       "outstanding"]),
     ("currency", ["currency", "curr", "ccy"])]),
   ("AR_Aging",
    [("customer_name", ["customer", "customer name", "client", "client name"]),
     ("customer_code", ["customer code", "customer id", "customer number",
       "client code"]),
     ("invoice_number", ["invoice", "invoice number", "invoice no", "inv no"]),
     ("invoice_date", ["invoice date", "inv date", "date"]),
     ("due_date", ["due date", "payment due"]),
     ("amount", ["amount", "invoice amount", "total", "outstanding"]),
     ("current", ["current", "0-30", "not due"]),
     ("days_30", ["30 days", "31-60", "1-30"]),
     ("days_60", ["60 days", "61-90", "31-60"]),
     ("days_90_plus", ["90+ days", "over 90", ">90", "90+"])]),
   ("POS_Sales",
    [("transaction_date", ["date", "sale date", "trans date",
       "transaction date"]),
     ("store_code", ["store", "store code", "store number", "location",
       "store id"]),
     ("product_code", ["product", "product code", "sku", "item code",
       "item number"]),
     ("product_name", ["product name", "item name", "description",
       "item desc"]),
     ("quantity", ["quantity", "qty", "units", "units sold"]),
     ("unit_price", ["price", "unit price", "selling price", "retail price"]),
     ("total_amount", ["amount", "total", "total amount", "sales amount",
       "revenue"])])]

/-- `SIMILARITY_THRESHOLD = 0.6`. -/
def SIMILARITY_THRESHOLD : ℚ := 6 / 10

/-- Strip leading and trailing whitespace from a character list
(Python's `str.strip`). -/
def stripChars (cs : List Char) : List Char :=
  ((cs.dropWhile Char.isWhitespace).reverse.dropWhile Char.isWhitespace).reverse

/-- `normalize_column_name`: lowercase, strip, then turn underscores and
hyphens into spaces (in that order, as in the source; the two
`str.replace` calls are single-character substitutions, computed here on
the character list so that the definition evaluates by `decide`). -/
def normalize_column_name (col : String) : String :=
  ⟨((stripChars (col.data.map Char.toLower)).map
      (fun c => if c = '_' then ' ' else c)).map
      (fun c => if c = '-' then ' ' else c)⟩

/-- Python's substring test `needle in hay` (note: the empty string is a
substring of everything). -/
def strIn (needle hay : String) : Bool :=
  (List.range (hay.data.length + 1)).any
    (fun i => needle.data.isPrefixOf (hay.data.drop i))

/-- Pattern loop of `_calculate_column_similarity`, threading the running
`best_score`: exact normalized match returns `1.0` immediately; a
substring relation raises the best score to at least `0.9`; the
`SequenceMatcher` ratio is always taken into the maximum. -/
def calcSimGo (ns : String) (best : ℚ) : List String → ℚ
  | [] => best
  | p :: ps =>
    let np := normalize_column_name p
    if ns = np then 1
    else
      let best1 := if strIn np ns || strIn ns np then maxQ best (9 / 10) else best
      let best2 := maxQ best1 (SeqMatcher.ratioQ ns.data np.data)
      calcSimGo ns best2 ps

/-- `_calculate_column_similarity(source_col, patterns)`. -/
def calculate_column_similarity (source_col : String) (patterns : List String) : ℚ :=
  calcSimGo (normalize_column_name source_col) 0 patterns

/-- One step of the source-column loop of `map_columns`: columns already
in `mapped_sources` are skipped; a column is accepted only with score
strictly above the running best and at least `SIMILARITY_THRESHOLD`. -/
def bestMatchStep (used : List String) (patterns : List String)
    (acc : Option String × ℚ) (c : String) : Option String × ℚ :=
  if c ∈ used then acc
  else if acc.2 < calculate_column_similarity c patterns ∧
      SIMILARITY_THRESHOLD ≤ calculate_column_similarity c patterns then
    (some c, calculate_column_similarity c patterns)
  else acc

/-- Inner loop of `map_columns` for one canonical field, over the source
columns in order. -/
def bestMatchGo (used : List String) (patterns : List String) :
    List String → Option String × ℚ → Option String × ℚ
  | [], acc => acc
  | c :: cs, acc => bestMatchGo used patterns cs (bestMatchStep used patterns acc c)

/-- `best_match`/`best_score` after the whole source-column loop
(initial state `(None, 0.0)`). -/
def bestMatchFold (source_columns used : List String) (patterns : List String) :
    Option String × ℚ :=
  bestMatchGo used patterns source_columns (none, 0)

/-- The column accepted for one canonical field.  Python tests the result
of the loop with `if best_match:`, so a best match equal to the empty
string is falsy and is treated as no match (and is not added to
`mapped_sources`). -/
def acceptField (source_columns used : List String) (patterns : List String) :
    Option String :=
  match (bestMatchFold source_columns used patterns).1 with
  | some c => if c = "" then none else some c
  | none => none

/-- Field loop of `map_columns` over the schema, threading the set of
already-used source columns. -/
def mapColumnsAux (source_columns : List String) :
    List (String × List String) → List String → List (String × Option String)
  | [], _ => []
  | (field, patterns) :: rest, used =>
    match acceptField source_columns used patterns with
    | some c => (field, some c) :: mapColumnsAux source_columns rest (c :: used)
    | none => (field, none) :: mapColumnsAux source_columns rest used

/-- `map_columns(source_columns, template_type)`: the association list from
canonical fields (in schema order) to matched source columns; `{}` for an
unknown template type. -/
def map_columns (source_columns : List String) (template_type : String) :
    List (String × Option String) :=
  match TEMPLATE_SCHEMAS.lookup template_type with
  | none => []
  | some schema => mapColumnsAux source_columns schema []

/-- `get_mapping_confidence`: mapped-field count over total field count,
`0.0` for the empty mapping. -/
def get_mapping_confidence (mappings : List (String × Option String)) : ℚ :=
  if mappings = [] then 0
  else (mappings.countP (fun p => p.2.isSome) : ℚ) / (mappings.length : ℚ)

/-- The `required_columns` table of `get_required_columns`. -/
def REQUIRED_COLUMNS : List (String × List String) :=
  [("BankStatement", ["transaction_date", "description"]),
   ("TrialBalance", ["account_code", "account_name"]),
   ("AP_OpenItems", ["vendor_name", "invoice_number", "amount"]),
   ("AR_Aging", ["customer_name", "invoice_number", "amount"]),
   ("POS_Sales", ["transaction_date", "product_code", "quantity",
      "total_amount"])]

/-- `get_required_columns(template_type)` (`dict.get` with default `[]`). -/
def get_required_columns (template_type : String) : List String :=
  (REQUIRED_COLUMNS.lookup template_type).getD []

/-- Python's `col not in mappings or mappings[col] is None`. -/
def isUnmapped (mappings : List (String × Option String)) (col : String) : Bool :=
  match mappings.lookup col with
  | some (some _) => false
  | _ => true

/-- `validate_mappings(mappings, template_type)`: the required columns that
are absent or mapped to `None`, in required order, plus the emptiness flag. -/
def validate_mappings (mappings : List (String × Option String))
    (template_type : String) : Bool × List String :=
  let missing := (get_required_columns template_type).filter (isUnmapped mappings)
  (missing.isEmpty, missing)

/-- Spec-style per-synonym score for the amended C5 statement: `1.0` for
an exact normalized match, otherwise the `SequenceMatcher` ratio floored
at `0.9` when one normalized string is a substring of the other. -/
def specPairScore (src pat : String) : ℚ :=
  let ns := normalize_column_name src
  let np := normalize_column_name pat
  if ns = np then 1
  else if strIn np ns || strIn ns np then
    maxQ (9 / 10) (SeqMatcher.ratioQ ns.data np.data)
  else SeqMatcher.ratioQ ns.data np.data

/-- The Scenario-D mapping: an `AP_OpenItems` mapping in which only the
required field `amount` is unmapped. -/
def apScenarioMapping : List (String × Option String) :=
  [("vendor_name", some "Vendor"), ("vendor_code", none),
   ("invoice_number", some "Invoice No"), ("invoice_date", none),
   ("due_date", none), ("amount", none), ("currency", none)]

end ColumnMapper

/-! ### Tabular data model

A parsed table, as produced by `pandas.read_excel`/`read_csv` and consumed
by the detector and the validator.  The cell type abstracts the pandas
value model: `null` stands for NaN/None, `num q` for a value that
`pd.to_numeric` parses (the model folds pandas' value parsing into the
constructors), `date d` for a genuine datetime value with day ordinal `d`,
and `text s` for any other string (including date-shaped strings coming
from CSV files, which are matched against the explicit date formats of the
DQ validator).
-/

inductive Cell where
  | null
  | num (q : ℚ)
  | date (d : ℤ)
  | text (s : String)
  deriving DecidableEq

/-- `pd.notna` for one cell. -/
def Cell.notna : Cell → Bool
  | .null => false
  | _ => true

/-- `pd.to_numeric(value, errors="coerce")` for one cell: numeric values
pass, everything else coerces to NaN. -/
def Cell.toNum : Cell → Option ℚ
  | .num q => some q
  | _ => none

/-- A table: named columns with positionally aligned rows (each row has
one cell per header). -/
structure Table where
  headers : List String
  rows : List (List Cell)
  deriving DecidableEq

/-- The column of index `i`. -/
def Table.col (t : Table) (i : ℕ) : List Cell :=
  t.rows.map (fun r => r.getD i Cell.null)

/-- `df[name]` — the column of the first header equal to `name`. -/
def Table.colByName (t : Table) (name : String) : List Cell :=
  match t.headers.findIdx? (fun h => h == name) with
  | some i => t.col i
  | none => []

/-- `name in df.columns`. -/
def Table.hasCol (t : Table) (name : String) : Bool :=
  t.headers.any (fun h => h == name)

/-- Lowercasing of a string (`str.lower`, ASCII case folding). -/
def lowerStr (s : String) : String :=
  ⟨s.data.map Char.toLower⟩

/-! ### Date-format matching (strptime model)

`DQValidator._check_date_formats` calls
`pd.to_datetime(column, format=fmt, errors="coerce")` for each of the nine
`DATE_FORMATS`.  The functions below model Python/pandas `strptime`
matching for exactly those nine format strings: `%Y` is four digits,
`%m`/`%d` are one or two digits within range, `%b`/`%B` are the English
month names (case-insensitive), a literal separator matches itself, a
space in the format matches one or more whitespace characters, the whole
string must be consumed, and the assembled date must be a valid calendar
date. -/

/-- Split a character list on a separator, keeping empty segments. -/
def splitOnChar (sep : Char) : List Char → List (List Char)
  | [] => [[]]
  | c :: cs =>
    let r := splitOnChar sep cs
    if c = sep then [] :: r
    else
      match r with
      | [] => [[c]]
      | g :: gs => (c :: g) :: gs

/-- The numeric value of a digit string. -/
def digitsToNat (cs : List Char) : ℕ :=
  cs.foldl (fun acc c => 10 * acc + (c.toNat - 48)) 0

/-- A one- or two-digit field (`%m`, `%d`). -/
def parse2 (cs : List Char) : Option ℕ :=
  if (cs.length = 1 ∨ cs.length = 2) ∧ cs.all Char.isDigit then
    some (digitsToNat cs)
  else none

/-- A four-digit field (`%Y`). -/
def parse4 (cs : List Char) : Option ℕ :=
  if cs.length = 4 ∧ cs.all Char.isDigit then some (digitsToNat cs)
  else none

def MONTH_ABBREVS : List String :=
  ["jan", "feb", "mar", "apr", "may", "jun", "jul", "aug", "sep", "oct",
   "nov", "dec"]

def MONTH_NAMES : List String :=
  ["january", "february", "march", "april", "may", "june", "july",
   "august", "september", "october", "november", "december"]

/-- `%b`/`%B`: the month number of a (case-insensitive) month name. -/
def monthIndex (full : Bool) (cs : List Char) : Option ℕ :=
  match (if full then MONTH_NAMES else MONTH_ABBREVS).findIdx?
      (fun n => n == String.mk (cs.map Char.toLower)) with
  | some i => some (i + 1)
  | none => none

def isLeapYear (y : ℕ) : Bool :=
  (decide (y % 4 = 0) && decide (¬ y % 100 = 0)) || decide (y % 400 = 0)

def daysInMonth (y m : ℕ) : ℕ :=
  if m = 2 then (if isLeapYear y then 29 else 28)
  else if m = 4 ∨ m = 6 ∨ m = 9 ∨ m = 11 then 30
  else 31

/-- Validity of the assembled date (Python `datetime` would raise
`ValueError` otherwise, which `errors="coerce"` turns into NaT). -/
def checkYMD (y m d : ℕ) : Bool :=
  decide (1 ≤ y) && decide (1 ≤ m) && decide (m ≤ 12) && decide (1 ≤ d) &&
    decide (d ≤ daysInMonth y m)

/-- Formats of shape year-month-day with a separator (`%Y-%m-%d`,
`%Y/%m/%d`). -/
def parseFmtYMD (sep : Char) (cs : List Char) : Bool :=
  match splitOnChar sep cs with
  | [a, b, c] =>
    match parse4 a, parse2 b, parse2 c with
    | some y, some m, some d => checkYMD y m d
    | _, _, _ => false
  | _ => false

/-- Formats of shape month-day-year (`%m/%d/%Y`, `%m-%d-%Y`). -/
def parseFmtMDY (sep : Char) (cs : List Char) : Bool :=
  match splitOnChar sep cs with
  | [a, b, c] =>
    match parse2 a, parse2 b, parse4 c with
    | some m, some d, some y => checkYMD y m d
    | _, _, _ => false
  | _ => false

/-- Formats of shape day-month-year (`%d/%m/%Y`, `%d-%m-%Y`). -/
def parseFmtDMY (sep : Char) (cs : List Char) : Bool :=
  match splitOnChar sep cs with
  | [a, b, c] =>
    match parse2 a, parse2 b, parse4 c with
    | some d, some m, some y => checkYMD y m d
    | _, _, _ => false
  | _ => false

/-- `%d-%b-%Y` (e.g. `15-Jan-2025`). -/
def parseFmtDbY (cs : List Char) : Bool :=
  match splitOnChar '-' cs with
  | [a, b, c] =>
    match parse2 a, monthIndex false b, parse4 c with
    | some d, some m, some y => checkYMD y m d
    | _, _, _ => false
  | _ => false

/-- `%b %d, %Y` and `%B %d, %Y` (e.g. `Jan 15, 2025`). -/
def parseFmtTextual (full : Bool) (cs : List Char) : Bool :=
  let name := cs.takeWhile (fun c => !c.isWhitespace)
  match monthIndex full name with
  | none => false
  | some m =>
    let rest1 := cs.drop name.length
    let ws1 := rest1.takeWhile Char.isWhitespace
    if ws1.length = 0 then false
    else
      let rest2 := rest1.drop ws1.length
      let dayDigits := rest2.takeWhile Char.isDigit
      match parse2 dayDigits with
      | none => false
      | some d =>
        match rest2.drop dayDigits.length with
        | ',' :: rest3 =>
          let ws2 := rest3.takeWhile Char.isWhitespace
          if ws2.length = 0 then false
          else
            let yearDigits := rest3.drop ws2.length
            match parse4 yearDigits with
            | some y => checkYMD y m d
            | none => false
        | _ => false

/-- `strptime` matching for the nine catalog formats. -/
def strptimeMatch (fmt : String) (s : String) : Bool :=
  let cs := s.data
  if fmt = "%Y-%m-%d" then parseFmtYMD '-' cs
  else if fmt = "%m/%d/%Y" then parseFmtMDY '/' cs
  else if fmt = "%d/%m/%Y" then parseFmtDMY '/' cs
  else if fmt = "%Y/%m/%d" then parseFmtYMD '/' cs
  else if fmt = "%m-%d-%Y" then parseFmtMDY '-' cs
  else if fmt = "%d-%m-%Y" then parseFmtDMY '-' cs
  else if fmt = "%b %d, %Y" then parseFmtTextual false cs
  else if fmt = "%B %d, %Y" then parseFmtTextual true cs
  else if fmt = "%d-%b-%Y" then parseFmtDbY cs
  else false

/-- Whether `pd.to_datetime(value, format=fmt, errors="coerce")` yields a
valid timestamp for one cell: genuine datetime values pass through, text
is matched against the format, numbers and nulls coerce to NaT. -/
def Cell.parsesWithFormat (fmt : String) : Cell → Bool
  | .date _ => true
  | .text s => strptimeMatch fmt s
  | _ => false

/-! ### DQValidator (`backend/app/intake/dq_validator.py`)

The report model keeps each check's name and status; the human-readable
message and the structured details payload are elided (no verified
property mentions them). -/

/-- `DQValidationResult`: overall status, the ordered check dictionary
(name and status), and the two running tallies. -/
structure DQValidationResult where
  status : String
  checks : List (String × String)
  error_count : ℕ
  warning_count : ℕ
  deriving DecidableEq

/-- The freshly initialized result (`__init__`). -/
def initResult : DQValidationResult :=
  ⟨"passed", [], 0, 0⟩

/-- `self.checks[check_name] = {...}`: a Python dict assignment keeps the
original position of an existing key and appends a new key at the end. -/
def updateCheck (cs : List (String × String)) (name status : String) :
    List (String × String) :=
  if cs.any (fun p => p.1 == name) then
    cs.map (fun p => if p.1 == name then (name, status) else p)
  else cs ++ [(name, status)]

/-- `DQValidationResult.add_check`: record the check (the dict update
happens in every branch), then update the tallies and the overall
status.  A `failed` check always increments `error_count` and forces
status `failed`; a `warning` check increments `warning_count` only when
the current status is not `failed`, and escalates the status only from
`passed`. -/
def DQValidationResult.add_check (r : DQValidationResult)
    (name status : String) : DQValidationResult :=
  if status = "failed" then
    { r with checks := updateCheck r.checks name status,
             error_count := r.error_count + 1, status := "failed" }
  else if status = "warning" ∧ r.status ≠ "failed" then
    { r with checks := updateCheck r.checks name status,
             warning_count := r.warning_count + 1,
             status := if r.status = "passed" then "warning" else r.status }
  else { r with checks := updateCheck r.checks name status }

namespace DQValidator

/-- `MAX_NULL_PERCENTAGE = 0.5`. -/
def MAX_NULL_PERCENTAGE : ℚ := 5 / 10

/-- `DATE_FORMATS`, in catalog order. -/
def DATE_FORMATS : List String :=
  ["%Y-%m-%d", "%m/%d/%Y", "%d/%m/%Y", "%Y/%m/%d", "%m-%d-%Y", "%d-%m-%Y",
   "%b %d, %Y", "%B %d, %Y", "%d-%b-%Y"]

/-- `_check_required_columns` (reuses the mapper's required-field list). -/
def checkRequiredColumns (template_type : String)
    (mappings : List (String × Option String)) (r : DQValidationResult) :
    DQValidationResult :=
  let missing := (ColumnMapper.get_required_columns template_type).filter
    (ColumnMapper.isUnmapped mappings)
  if missing ≠ [] then
    r.add_check "required_columns" "failed"
  else r.add_check "required_columns" "passed"

/-- The mapped canonical fields whose name contains `"date"`. -/
def dateColumns (mappings : List (String × Option String)) :
    List (String × String) :=
  mappings.filterMap (fun p =>
    match p.2 with
    | some src =>
      if ColumnMapper.strIn "date" (lowerStr p.1) then some (p.1, src)
      else none
    | none => none)

/-- Whether one date format parses at least 80 percent of the non-null
values of the source column. -/
def dateFmtHit (t : Table) (src : String) (total : ℕ) (fmt : String) : Bool :=
  let parsed := ((t.colByName src).filter (Cell.parsesWithFormat fmt)).length
  decide ((4 : ℚ) / 5 ≤ (parsed : ℚ) / (total : ℚ))

/-- Field-level status of `_check_date_formats`: `warning` for an entirely
empty column, `passed` when the first format reaching 80 percent exists,
else `failed`. -/
def dateFieldStatus (t : Table) (src : String) : String :=
  let total := ((t.colByName src).filter Cell.notna).length
  if total = 0 then "warning"
  else if DATE_FORMATS.any (dateFmtHit t src total) then "passed"
  else "failed"

/-- `_check_date_formats`: no check is recorded when no date field is
mapped; fields mapped to a column absent from the table are skipped;
the check fails iff some examined field failed. -/
def checkDateFormats (t : Table) (mappings : List (String × Option String))
    (r : DQValidationResult) : DQValidationResult :=
  let dcols := dateColumns mappings
  if dcols = [] then r
  else
    let details := dcols.filterMap (fun p =>
      if t.hasCol p.2 then some (p.1, dateFieldStatus t p.2) else none)
    if details.any (fun d => d.2 == "failed") then
      r.add_check "date_formats" "failed"
    else r.add_check "date_formats" "passed"

/-- The numeric keywords of `_check_numeric_columns`. -/
def NUMERIC_KEYWORDS : List String :=
  ["amount", "quantity", "qty", "price", "balance", "total"]

/-- The mapped canonical fields whose name contains a numeric keyword. -/
def numericColumns (mappings : List (String × Option String)) :
    List (String × String) :=
  mappings.filterMap (fun p =>
    match p.2 with
    | some src =>
      if NUMERIC_KEYWORDS.any (fun kw => ColumnMapper.strIn kw (lowerStr p.1))
      then some (p.1, src)
      else none
    | none => none)

/-- Field-level status of `_check_numeric_columns` (the min/max/mean
details of a passing field are elided). -/
def numericFieldStatus (t : Table) (src : String) : String :=
  let valid := ((t.colByName src).filterMap Cell.toNum).length
  let total := ((t.colByName src).filter Cell.notna).length
  if total = 0 then "warning"
  else if decide ((80 : ℚ) ≤ (valid : ℚ) / (total : ℚ) * 100) then "passed"
  else "failed"

/-- `_check_numeric_columns`: records `warning` (not `failed`) when some
field fails. -/
def checkNumericColumns (t : Table) (mappings : List (String × Option String))
    (r : DQValidationResult) : DQValidationResult :=
  let ncols := numericColumns mappings
  if ncols = [] then r
  else
    let details := ncols.filterMap (fun p =>
      if t.hasCol p.2 then some (p.1, numericFieldStatus t p.2) else none)
    if details.any (fun d => d.2 == "failed") then
      r.add_check "numeric_columns" "warning"
    else r.add_check "numeric_columns" "passed"

/-- The fixed key-column set of `_check_duplicates`. -/
def KEY_COLUMNS : List String :=
  ["transaction_date", "invoice_number", "reference_number", "product_code",
   "account_code"]

/-- The mapped source columns usable as duplicate keys, in mapping order. -/
def keyColumns (t : Table) (mappings : List (String × Option String)) :
    List String :=
  mappings.filterMap (fun p =>
    match p.2 with
    | some src =>
      if p.1 ∈ KEY_COLUMNS ∧ t.hasCol src then some src else none
    | none => none)

/-- `df.duplicated(...).sum()`: the number of rows equal to some earlier
row (pandas marks every occurrence after the first; NaNs compare equal). -/
def dupCount (rows : List (List Cell)) : ℕ :=
  (List.range rows.length).countP
    (fun i => (List.range i).any (fun j => rows.getD j [] == rows.getD i []))

/-- The projection of a row to the named key columns. -/
def projectRow (t : Table) (cols : List String) (r : List Cell) : List Cell :=
  cols.map (fun c =>
    match t.headers.findIdx? (fun h => h == c) with
    | some i => r.getD i Cell.null
    | none => Cell.null)

/-- `_check_duplicates`: key-column duplicates when a key is mapped, else
whole-row duplicates; duplicates give `warning`, never `failed`. -/
def checkDuplicates (t : Table) (mappings : List (String × Option String))
    (r : DQValidationResult) : DQValidationResult :=
  let keys := keyColumns t mappings
  if keys = [] then
    if dupCount t.rows > 0 then
      r.add_check "duplicates" "warning"
    else r.add_check "duplicates" "passed"
  else
    if dupCount (t.rows.map (projectRow t keys)) > 0 then
      r.add_check "duplicates" "warning"
    else r.add_check "duplicates" "passed"

/-- `_check_null_values`: the mapped fields whose source column exceeds
the null-percentage threshold (the per-field detail payload is elided). -/
def highNullColumns (t : Table) (mappings : List (String × Option String)) :
    List String :=
  mappings.filterMap (fun p =>
    match p.2 with
    | some src =>
      if t.hasCol src then
        (if decide (MAX_NULL_PERCENTAGE <
            (((t.colByName src).filter (fun c => !c.notna)).length : ℚ)
              / (t.rows.length : ℚ)) then some p.1 else none)
      else none
    | none => none)

/-- `_check_null_values`: any field above 50 percent null gives `warning`. -/
def checkNullValues (t : Table) (mappings : List (String × Option String))
    (r : DQValidationResult) : DQValidationResult :=
  if highNullColumns t mappings ≠ [] then
    r.add_check "null_values" "warning"
  else r.add_check "null_values" "passed"

/-- `_check_row_count`: `failed` below one row, `warning` below ten. -/
def checkRowCount (t : Table) (r : DQValidationResult) : DQValidationResult :=
  let row_count := t.rows.length
  if row_count < 1 then r.add_check "row_count" "failed"
  else if row_count < 10 then r.add_check "row_count" "warning"
  else r.add_check "row_count" "passed"

/-- `validate_dataset`: the six checks in their fixed order. -/
def validate_dataset (t : Table) (template_type : String)
    (mappings : List (String × Option String)) : DQValidationResult :=
  checkRowCount t
    (checkNullValues t mappings
      (checkDuplicates t mappings
        (checkNumericColumns t mappings
          (checkDateFormats t mappings
            (checkRequiredColumns template_type mappings initResult)))))

end DQValidator

/-- A report built from an arbitrary sequence of `add_check` calls. -/
def runChecks (seq : List (String × String)) : DQValidationResult :=
  seq.foldl (fun r p => r.add_check p.1 p.2) initResult

/-- The severity order `passed < warning < failed` (any other status
string ranks lowest). -/
def statusRank (s : String) : ℕ :=
  if s = "failed" then 2 else if s = "warning" then 1 else 0

/-- The status transition of one `add_check` call, as a function of the
previous overall status and the added check's status. -/
def stepStatus (s0 s : String) : String :=
  if s = "failed" then "failed"
  else if s = "warning" ∧ s0 = "passed" then "warning"
  else s0

/-- The spec-side overall status of a call sequence: `failed` if any call
failed, else `warning` if any call warned, else `passed`. -/
def specStatus (seq : List (String × String)) : String :=
  if seq.any (fun p => p.2 == "failed") then "failed"
  else if seq.any (fun p => p.2 == "warning") then "warning"
  else "passed"

/-! ### TemplateDetector (`backend/app/intake/template_detector.py`)

The structural analysis classifies each column by sampling cell parse
results; the `Cell` constructors stand for the pandas parse verdicts
(see the `Cell` docstring).  Quirks of `pd.to_datetime` on numeric input
are not modelled: numeric cells classify as numeric, datetime cells as
dates.  The scoring functions read only the analysis record (their
DataFrame argument in the source is unused). -/

/-- An executable minimum on `ℚ` (`min(score, 1.0)`). -/
def minQ (a b : ℚ) : ℚ :=
  if a ≤ b then a else b

/-- Insertion into a sorted list (ascending by `le`). -/
def insertLe {α : Type} (le : α → α → Bool) (x : α) : List α → List α
  | [] => [x]
  | y :: ys => if le x y then x :: y :: ys else y :: insertLe le x ys

/-- Insertion sort (pandas `sort_values`), written structurally so that
it evaluates inside the kernel. -/
def sortByLe {α : Type} (le : α → α → Bool) (l : List α) : List α :=
  l.foldr (insertLe le) []

/-- Consecutive differences of a list (`Series.diff()` with the leading
NaN dropped). -/
def consecutiveDiffs : List ℤ → List ℤ
  | [] => []
  | [_] => []
  | a :: b :: rest => (b - a) :: consecutiveDiffs (b :: rest)

/-- `Series.median` of a nonempty list (mean of the two middle elements
for even length). -/
def medianQ (l : List ℚ) : ℚ :=
  let s := sortByLe (fun a b => decide (a ≤ b)) l
  let n := l.length
  if n = 0 then 0
  else if n % 2 = 1 then s.getD (n / 2) 0
  else (s.getD (n / 2 - 1) 0 + s.getD (n / 2) 0) / 2

namespace TemplateDetector

/-- Whether a cell parses as a datetime (see the `Cell` model). -/
def isDateCell : Cell → Bool
  | .date _ => true
  | _ => false

/-- Whether a cell parses as a number (currency symbols and thousands
separators are part of the `num` abstraction). -/
def isNumCell : Cell → Bool
  | .num _ => true
  | _ => false

/-- `_is_date_column`: sample up to 10 non-null values, more than 70
percent must parse as dates. -/
def is_date_column (col_data : List Cell) : Bool :=
  let sample := col_data.take 10
  if sample.length = 0 then false
  else decide ((7 : ℚ) / 10 <
    ((sample.filter isDateCell).length : ℚ) / (sample.length : ℚ))

/-- `_is_numeric_column`: sample up to 10 non-null values, more than 70
percent must parse as numbers.  (The `is_numeric_dtype` fast path of the
source returns true only when every value is numeric, in which case this
sampling test also returns true, so it is subsumed.) -/
def is_numeric_column (col_data : List Cell) : Bool :=
  let sample := col_data.take 10
  if sample.length = 0 then false
  else decide ((7 : ℚ) / 10 <
    ((sample.filter isNumCell).length : ℚ) / (sample.length : ℚ))

/-- `_has_sequential_dates`: at least two dates, and the median day gap
of the sorted dates is at most 7. -/
def has_sequential_dates (col_data : List Cell) : Bool :=
  let dates := col_data.filterMap (fun c =>
    match c with
    | .date d => some d
    | _ => none)
  if dates.length < 2 then false
  else
    let sorted := sortByLe (fun a b => decide (a ≤ b)) dates
    let ds := consecutiveDiffs sorted
    if ds.length = 0 then false
    else decide (medianQ (ds.map (fun z => (z : ℚ))) ≤ 7)

/-- `_looks_like_running_balance`: at least three numeric values, all of
one sign, with coefficient of variation below 2.  The comparison
`std/mean < 2.0` is expressed inside `ℚ`: for a negative mean the
quotient is nonpositive and the test holds; for a positive mean it
squares to `var < 4·mean²` (sample variance, ddof 1); a zero mean (the
`inf` branch of the source, unreachable under the sign test) fails. -/
def looks_like_running_balance (col_data : List Cell) : Bool :=
  let numeric := col_data.filterMap Cell.toNum
  if numeric.length < 3 then false
  else
    let all_positive := numeric.all (fun q => decide (0 < q))
    let all_negative := numeric.all (fun q => decide (q < 0))
    if !(all_positive || all_negative) then false
    else
      let n : ℚ := (numeric.length : ℚ)
      let mean := numeric.sum / n
      if decide (mean < 0) then true
      else
        let var := (numeric.map (fun q => (q - mean) * (q - mean))).sum / (n - 1)
        decide (var < 4 * (mean * mean))

/-- `str(value)` for `astype(str)`; the renderings of non-text values are
abbreviated (only text columns reach this function). -/
def cellStr : Cell → String
  | .text s => s
  | .num q => toString q.num
  | .date d => toString d
  | .null => "nan"

/-- `_looks_like_account_numbers`: in a sample of up to 20 values, at
least 70 percent contain a digit, and the lengths have standard
deviation below 3 (`std` with ddof 1 is NaN for a single value, and
`NaN < 3` is false; otherwise the test squares to `var < 9`). -/
def looks_like_account_numbers (col_data : List Cell) : Bool :=
  let sample := (col_data.map cellStr).take 20
  if sample.length = 0 then false
  else
    let has_digits := (sample.filter (fun s => s.data.any Char.isDigit)).length
    if decide (((has_digits : ℚ) / (sample.length : ℚ)) < 7 / 10) then false
    else if sample.length = 1 then false
    else
      let lens : List ℚ := sample.map (fun s => (s.length : ℚ))
      let n : ℚ := (sample.length : ℚ)
      let mean := lens.sum / n
      let var := (lens.map (fun q => (q - mean) * (q - mean))).sum / (n - 1)
      decide (var < 9)

/-- One direction of the mutual-exclusivity mask of
`_has_debit_credit_pattern`: the first value is present and non-zero
while the second is absent or zero. -/
def dcMask (a b : Option ℚ) : Bool :=
  match a, b with
  | some x, some y => decide (x ≠ 0) && decide (y = 0)
  | some x, none => decide (x ≠ 0)
  | _, _ => false

/-- The mutually-exclusive row fraction for one pair of columns (over all
rows of the frame, as in the source). -/
def mutualExclusivePct (t : Table) (i j : ℕ) : ℚ :=
  let pairs := t.rows.map (fun r =>
    (Cell.toNum (r.getD i Cell.null), Cell.toNum (r.getD j Cell.null)))
  ((pairs.countP (fun p => dcMask p.1 p.2)
      + pairs.countP (fun p => dcMask p.2 p.1) : ℕ) : ℚ) / (t.rows.length : ℚ)

/-- The ordered pairs `i < j` of a list (the nested loop of the source). -/
def listPairs {α : Type} : List α → List (α × α)
  | [] => []
  | x :: xs => xs.map (fun y => (x, y)) ++ listPairs xs

/-- `_has_debit_credit_pattern`: some pair of numeric columns is mutually
exclusive on more than 60 percent of the rows. -/
def has_debit_credit_pattern (t : Table) (numeric_cols : List ℕ) : Bool :=
  if numeric_cols.length < 2 then false
  else (listPairs numeric_cols).any (fun p =>
    decide ((6 : ℚ) / 10 < mutualExclusivePct t p.1 p.2))

def AGING_KEYWORDS : List String :=
  ["current", "30", "60", "90", "120", "days", "aging"]

/-- `_has_aging_bucket_pattern`: at least three numeric-column headers
contain an aging keyword. -/
def has_aging_bucket_pattern (t : Table) (numeric_cols : List ℕ) : Bool :=
  if numeric_cols.length < 3 then false
  else
    let names := numeric_cols.map (fun i => lowerStr (t.headers.getD i ""))
    decide (3 ≤ (names.filter
      (fun n => AGING_KEYWORDS.any (fun kw => ColumnMapper.strIn kw n))).length)

/-- The analysis record of `_analyze_dataframe`. -/
structure Analysis where
  date_columns : List ℕ
  numeric_columns : List ℕ
  text_columns : List ℕ
  has_running_balance : Bool
  has_debit_credit : Bool
  has_aging_buckets : Bool
  has_account_numbers : Bool
  has_sequential_dates : Bool
  num_rows : ℕ
  num_columns : ℕ
  deriving DecidableEq

/-- The per-column classification step of `_analyze_dataframe` (the
boolean flags only ever latch to true). -/
def analyzeStep (t : Table) (a : Analysis) (idx : ℕ) : Analysis :=
  let col_data := (t.col idx).filter Cell.notna
  if col_data.length = 0 then a
  else if is_date_column col_data then
    { a with date_columns := a.date_columns ++ [idx],
             has_sequential_dates :=
               a.has_sequential_dates || has_sequential_dates col_data }
  else if is_numeric_column col_data then
    { a with numeric_columns := a.numeric_columns ++ [idx],
             has_running_balance :=
               a.has_running_balance || looks_like_running_balance col_data }
  else
    { a with text_columns := a.text_columns ++ [idx],
             has_account_numbers :=
               a.has_account_numbers || looks_like_account_numbers col_data }

/-- `_analyze_dataframe`. -/
def analyze_dataframe (t : Table) : Analysis :=
  let base : Analysis :=
    ⟨[], [], [], false, false, false, false, false, t.rows.length,
     t.headers.length⟩
  let a := (List.range t.headers.length).foldl (analyzeStep t) base
  let a :=
    if 2 ≤ a.numeric_columns.length then
      { a with has_debit_credit := has_debit_credit_pattern t a.numeric_columns }
    else a
  if 3 ≤ a.numeric_columns.length then
    { a with has_aging_buckets := has_aging_bucket_pattern t a.numeric_columns }
  else a

/-- `_score_bank_statement`. -/
def score_bank_statement (a : Analysis) : ℚ :=
  if a.date_columns.length = 0 then 0
  else
    let s : ℚ := 3 / 10
    let s := if a.has_sequential_dates then s + 2 / 10 else s
    let s := if a.has_running_balance then s + 2 / 10 else s
    let s := if 1 ≤ a.text_columns.length then s + 1 / 10 else s
    let s := if 1 ≤ a.numeric_columns.length ∧ a.numeric_columns.length ≤ 3
      then s + 1 / 10 else s
    let s := if 3 ≤ a.num_columns ∧ a.num_columns ≤ 6 then s + 1 / 10 else s
    minQ s 1

/-- `_score_trial_balance`. -/
def score_trial_balance (a : Analysis) : ℚ :=
  if a.has_sequential_dates then 0
  else
    let s : ℚ := 0
    let s := if a.has_account_numbers then s + 3 / 10 else s
    let s := if a.has_debit_credit then s + 4 / 10 else s
    let s := if 1 ≤ a.text_columns.length then s + 15 / 100 else s
    let s := if 3 ≤ a.num_columns ∧ a.num_columns ≤ 5 then s + 15 / 100 else s
    minQ s 1

/-- `_score_ap_items`. -/
def score_ap_items (a : Analysis) : ℚ :=
  let s : ℚ := 0
  let s := if 1 ≤ a.date_columns.length then s + 2 / 10 else s
  let s := if 1 ≤ a.text_columns.length then s + 25 / 100 else s
  let s := if a.has_aging_buckets then s + 3 / 10 else s
  let s := if 2 ≤ a.numeric_columns.length then s + 15 / 100 else s
  let s := if 4 ≤ a.num_columns ∧ a.num_columns ≤ 8 then s + 1 / 10 else s
  minQ s 1

/-- `_score_ar_aging`. -/
def score_ar_aging (a : Analysis) : ℚ :=
  let s : ℚ := 0
  let s := if 1 ≤ a.date_columns.length then s + 2 / 10 else s
  let s := if 1 ≤ a.text_columns.length then s + 25 / 100 else s
  let s := if a.has_aging_buckets then s + 35 / 100 else s
  let s := if 2 ≤ a.numeric_columns.length then s + 1 / 10 else s
  let s := if 4 ≤ a.num_columns ∧ a.num_columns ≤ 8 then s + 1 / 10 else s
  minQ s 1

/-- `_score_pos_sales`. -/
def score_pos_sales (a : Analysis) : ℚ :=
  if a.date_columns.length = 0 then 0
  else
    let s : ℚ := 2 / 10
    let s := if 2 ≤ a.text_columns.length then s + 2 / 10 else s
    let s := if 2 ≤ a.numeric_columns.length then s + 2 / 10 else s
    let s := if 100 < a.num_rows then s + 2 / 10 else s
    let s := if 4 ≤ a.num_columns ∧ a.num_columns ≤ 10 then s + 2 / 10 else s
    minQ s 1

/-- Python's `max(scores.items(), key=lambda x: x[1])`: the first item of
the list wins ties (the running best is replaced only on a strictly
greater score). -/
def maxBySnd (x : String × ℚ) : List (String × ℚ) → String × ℚ
  | [] => x
  | y :: ys => maxBySnd (if x.2 < y.2 then y else x) ys

/-- The five per-type scores, in declaration (dict-insertion) order. -/
def scoresList (t : Table) : List (String × ℚ) :=
  let a := analyze_dataframe t
  [("BankStatement", score_bank_statement a),
   ("TrialBalance", score_trial_balance a),
   ("AP_OpenItems", score_ap_items a),
   ("AR_Aging", score_ar_aging a),
   ("POS_Sales", score_pos_sales a)]

/-- The maximum of the five scores (fold of the running maximum from the
first entry). -/
def maxScore (t : Table) : ℚ :=
  match scoresList t with
  | [] => 0
  | p :: ps => (ps.map Prod.snd).foldl maxQ p.2

/-- `detect_from_dataframe`: empty frame guard, all five scores, argmax
with first-declared tie-breaking, and the 0.3 acceptance threshold (the
score list built from the dict literal is never empty; the `[]` arm is
unreachable). -/
def detect_from_dataframe (t : Table) : Option String × ℚ :=
  if t.rows.length = 0 ∨ t.headers.length = 0 then (none, 0)
  else
    match scoresList t with
    | [] => (none, 0)
    | p :: ps =>
      let best := maxBySnd p ps
      if best.2 < 3 / 10 then (none, 0)
      else (some best.1, best.2)

end TemplateDetector

/-! ### FileParser (`backend/app/intake/file_parser.py`)

`_parse_excel` is modelled on the table already read by `pd.read_excel`
(sheet selection and workbook decoding belong to pandas); `_parse_csv`
is modelled on the raw lines of the file, with a simple reader standing
for `pd.read_csv` (quoting and numeric type inference are not modelled —
neither affects column counts or row emptiness, the two properties the
parser inspects). -/

namespace FileParser

/-- A row is entirely empty when every cell is NaN (`dropna(how="all")`
removes exactly these rows). -/
def rowAllNull (r : List Cell) : Bool :=
  r.all (fun c => !c.notna)

/-- Header trimming plus empty-row removal (the common tail of both
parsers; `reset_index` has no observable effect in this model). -/
def cleanTable (t : Table) : Table :=
  ⟨t.headers.map (fun h => String.mk (ColumnMapper.stripChars h.data)),
   t.rows.filter (fun r => !rowAllNull r)⟩

/-- `_parse_excel`: reject an empty frame (`df.empty`: zero rows or zero
columns) before cleaning, then strip headers and drop entirely empty
rows. -/
def parse_excel (t : Table) : Except String Table :=
  if t.rows.length = 0 ∨ t.headers.length = 0 then
    Except.error "Excel file is empty"
  else Except.ok (cleanTable t)

/-- One `pd.read_csv(file, delimiter=d)` attempt on the raw lines: blank
lines are skipped (`skip_blank_lines`), the header row fixes the column
count, a data row with more fields than the header is a parse error (the
python engine raises), a shorter row is padded with NaN, an empty field
becomes NaN and any other field is kept as text. -/
def readCsv (lines : List String) (delim : Char) : Option Table :=
  match lines.filter (fun l => l ≠ "") with
  | [] => none
  | header :: dataLines =>
    let headers := (splitOnChar delim header.data).map (fun cs => String.mk cs)
    let ncols := headers.length
    let fieldRows := dataLines.map (fun l =>
      (splitOnChar delim l.data).map (fun cs => String.mk cs))
    if fieldRows.any (fun r => ncols < r.length) then none
    else
      some ⟨headers, fieldRows.map (fun r =>
        (r ++ List.replicate (ncols - r.length) "").map
          (fun f => if f = "" then Cell.null else Cell.text f))⟩

/-- The fixed delimiter priority order of `_parse_csv`. -/
def csvDelimiters : List Char :=
  [',', ';', '\t', '|']

/-- The delimiter loop of `_parse_csv`: a read failure or a single-column
result falls through to the next delimiter, as does a table that is
empty after cleaning; the first delimiter with more than one column and
a non-empty cleaned table returns its cleaned table. -/
def tryDelimiters (lines : List String) : List Char → Except String Table
  | [] => Except.error "Could not parse CSV file"
  | d :: ds =>
    match readCsv lines d with
    | none => tryDelimiters lines ds
    | some t =>
      if 1 < t.headers.length then
        if (cleanTable t).rows ≠ [] then Except.ok (cleanTable t)
        else tryDelimiters lines ds
      else tryDelimiters lines ds

/-- `_parse_csv`. -/
def parse_csv (lines : List String) : Except String Table :=
  tryDelimiters lines csvDelimiters

/-- The spec-side acceptance test for one delimiter: more than one column
and at least one non-empty row after trimming and empty-row removal. -/
def acceptDelim (lines : List String) (d : Char) : Option Table :=
  match readCsv lines d with
  | some t =>
    if 1 < t.headers.length ∧ (cleanTable t).rows ≠ [] then
      some (cleanTable t)
    else none
  | none => none

end FileParser

/-- The Table of the C4 failing input: one column `A`, two distinct text
rows. -/
def c4Table : Table :=
  ⟨["A"], [[Cell.text "x"], [Cell.text "y"]]⟩

/-- The mapping of the C4 failing input: the required `BankStatement`
fields are unmapped, so the first check fails before the row-count
warning is added. -/
def c4Mappings : List (String × Option String) :=
  [("description", none)]

/-! ## Theorems -/

namespace ColumnMapper

lemma bestMatchStep_some_not_used (used patterns : List String)
    (acc : Option String × ℚ) (x : String)
    (h : ∀ c, acc.1 = some c → c ∉ used) :
    ∀ c, (bestMatchStep used patterns acc x).1 = some c → c ∉ used := by
  intro c hc
  unfold bestMatchStep at hc
  split at hc
  · exact h c hc
  · next hx =>
    split at hc
    · simp only [Option.some.injEq] at hc
      subst hc
      exact hx
    · exact h c hc

lemma bestMatchGo_some_not_used (used patterns : List String) :
    ∀ (cols : List String) (acc : Option String × ℚ),
      (∀ c, acc.1 = some c → c ∉ used) →
      ∀ c, (bestMatchGo used patterns cols acc).1 = some c → c ∉ used := by
  intro cols
  induction cols with
  | nil => intro acc h c hc; exact h c hc
  | cons x xs ih =>
    intro acc h c hc
    exact ih _ (bestMatchStep_some_not_used used patterns acc x h) c hc

lemma acceptField_not_used (source_columns used patterns : List String) (c : String)
    (h : acceptField source_columns used patterns = some c) : c ∉ used := by
  unfold acceptField at h
  cases hbm : (bestMatchFold source_columns used patterns).1 with
  | none => rw [hbm] at h; exact absurd h (by simp)
  | some c' =>
    rw [hbm] at h
    dsimp only at h
    by_cases hemp : c' = ""
    · rw [if_pos hemp] at h; exact absurd h (by simp)
    · rw [if_neg hemp] at h
      simp only [Option.some.injEq] at h
      have hcu := bestMatchGo_some_not_used used patterns source_columns (none, 0)
        (by intro d hd; simp at hd) c' hbm
      rwa [h] at hcu

lemma mapColumnsAux_snd_not_used (source_columns : List String) :
    ∀ (schema : List (String × List String)) (used : List String) (f c : String),
      (f, some c) ∈ mapColumnsAux source_columns schema used → c ∉ used := by
  intro schema
  induction schema with
  | nil => intro used f c h; simp [mapColumnsAux] at h
  | cons fp rest ih =>
    intro used f c h
    obtain ⟨field, patterns⟩ := fp
    cases hacc : acceptField source_columns used patterns with
    | none =>
      simp only [mapColumnsAux, hacc, List.mem_cons] at h
      rcases h with h | h
      · exact absurd h (by simp)
      · exact ih used f c h
    | some c' =>
      simp only [mapColumnsAux, hacc, List.mem_cons] at h
      rcases h with h | h
      · have hc : c = c' := by
          have := (Prod.mk.injEq _ _ _ _).mp h
          simpa using this.2
        subst hc
        exact acceptField_not_used source_columns used patterns c hacc
      · intro hcu
        exact ih (c' :: used) f c h (List.mem_cons_of_mem _ hcu)

lemma mapColumnsAux_values_nodup (source_columns : List String) :
    ∀ (schema : List (String × List String)) (used : List String),
      ((mapColumnsAux source_columns schema used).filterMap Prod.snd).Nodup := by
  intro schema
  induction schema with
  | nil => intro used; simp [mapColumnsAux]
  | cons fp rest ih =>
    intro used
    obtain ⟨field, patterns⟩ := fp
    cases hacc : acceptField source_columns used patterns with
    | none => simpa [mapColumnsAux, hacc] using ih used
    | some c =>
      simp only [mapColumnsAux, hacc, List.filterMap_cons]
      rw [List.nodup_cons]
      refine ⟨?_, ih (c :: used)⟩
      intro hmem
      rw [List.mem_filterMap] at hmem
      obtain ⟨⟨f, v⟩, hmem, hv⟩ := hmem
      simp only at hv
      subst hv
      exact mapColumnsAux_snd_not_used source_columns rest (c :: used) f c hmem
        (List.mem_cons_self c used)

lemma maxQ_eq_max (a b : ℚ) : maxQ a b = max a b := by
  unfold maxQ
  rcases le_total a b with h | h
  · rw [if_pos h, max_eq_right h]
  · rcases eq_or_lt_of_le h with rfl | hlt
    · simp
    · rw [if_neg (not_le.mpr hlt), max_eq_left h]

lemma maxQ_assoc (a b c : ℚ) : maxQ (maxQ a b) c = maxQ a (maxQ b c) := by
  simp only [maxQ_eq_max]
  exact max_assoc a b c

lemma calcSimGo_spec (src : String) :
    ∀ (pats : List String) (best : ℚ),
      calcSimGo (normalize_column_name src) best pats
        = if pats.any
              (fun p => normalize_column_name src = normalize_column_name p)
          then 1
          else (pats.map (specPairScore src)).foldl maxQ best := by
  intro pats
  induction pats with
  | nil => intro best; simp [calcSimGo]
  | cons p ps ih =>
    intro best
    by_cases hexact : normalize_column_name src = normalize_column_name p
    · simp [calcSimGo, hexact]
    · have hany : ((p :: ps).any
          (fun q => normalize_column_name src = normalize_column_name q))
          = (ps.any (fun q => normalize_column_name src = normalize_column_name q)) := by
        simp [hexact]
      rw [List.map_cons, List.foldl_cons]
      unfold calcSimGo
      rw [if_neg hexact, ih, hany]
      by_cases hps : (ps.any
          (fun q => normalize_column_name src = normalize_column_name q)) = true
      · rw [if_pos hps, if_pos hps]
      · rw [if_neg hps, if_neg hps]
        congr 1
        unfold specPairScore
        rw [if_neg hexact]
        by_cases hsub : (strIn (normalize_column_name p) (normalize_column_name src)
            || strIn (normalize_column_name src) (normalize_column_name p)) = true
        · rw [if_pos hsub, if_pos hsub]
          exact maxQ_assoc best (9 / 10) _
        · rw [if_neg hsub, if_neg hsub]

/-- C5 (amended): the similarity score is `1.0` when the source column
normalizes to exactly one of the synonyms; otherwise it is the maximum
over the synonyms of the edit-distance ratio, floored at `0.9` for a
synonym in a substring relation with the source column (a non-exact
substring match scores `max 0.9 ratio`, not exactly `0.9`). -/
theorem similarity_score_characterization (source_col : String)
    (patterns : List String) :
    calculate_column_similarity source_col patterns
      = if patterns.any
            (fun p => normalize_column_name source_col = normalize_column_name p)
        then 1
        else (patterns.map (specPairScore source_col)).foldl maxQ 0 := by
  unfold calculate_column_similarity
  exact calcSimGo_spec source_col patterns 0

/-- C5 counterexample: `"references"` against the synonym list
`["reference"]` is not an exact normalized match but is a substring
match, yet the score is `18/19 ≈ 0.947`, not exactly `0.9` — the code
takes the maximum of `0.9` and the `SequenceMatcher` ratio. -/
theorem similarity_substring_counterexample :
    normalize_column_name "references" ≠ normalize_column_name "reference" ∧
    strIn (normalize_column_name "reference")
      (normalize_column_name "references") = true ∧
    calculate_column_similarity "references" ["reference"] ≠ 9 / 10 ∧
    calculate_column_similarity "references" ["reference"] = 18 / 19 := by
  refine ⟨by decide, by decide, by with_unfolding_all decide,
    by with_unfolding_all decide⟩

/-- C2: for every list of source columns and every template type, the
mapping produced by `map_columns` is injective on mapped values — the
mapped source columns (the non-`None` values, in schema order) are
pairwise distinct, because an accepted source column is removed from the
candidate pool for all later canonical fields. -/
theorem map_columns_injective_on_mapped_sources (source_columns : List String)
    (template_type : String) :
    ((map_columns source_columns template_type).filterMap Prod.snd).Nodup := by
  unfold map_columns
  cases TEMPLATE_SCHEMAS.lookup template_type with
  | none => simp
  | some schema => exact mapColumnsAux_values_nodup source_columns schema []

lemma lookup_mem_map_snd {α β : Type} [BEq α] :
    ∀ (l : List (α × β)) (k : α) (v : β),
      l.lookup k = some v → v ∈ l.map Prod.snd := by
  intro l
  induction l with
  | nil => intro k v h; simp [List.lookup] at h
  | cons kv rest ih =>
    intro k v h
    obtain ⟨k', v'⟩ := kv
    cases hbeq : k == k' with
    | true =>
      simp only [List.lookup, hbeq] at h
      simp only [Option.some.injEq] at h
      subst h
      simp
    | false =>
      simp only [List.lookup, hbeq] at h
      simpa using Or.inr (ih k v h)

lemma lookup_eq_none_of_not_mem {α β : Type} [BEq α] [LawfulBEq α] :
    ∀ (l : List (α × β)) (k : α),
      k ∉ l.map Prod.fst → l.lookup k = none := by
  intro l
  induction l with
  | nil => intro k _; rfl
  | cons kv rest ih =>
    intro k hk
    obtain ⟨k', v'⟩ := kv
    simp only [List.map_cons, List.mem_cons] at hk
    push_neg at hk
    have hne : (k == k') = false := by
      rw [beq_eq_false_iff_ne]
      exact hk.1
    simp only [List.lookup, hne]
    exact ih k hk.2

lemma isUnmapped_eq_false_iff (m : List (String × Option String)) (c : String) :
    isUnmapped m c = false ↔ ∃ s, m.lookup c = some (some s) := by
  unfold isUnmapped
  cases h : m.lookup c with
  | none => simp
  | some v => cases v <;> simp

/-- C7: `validate_mappings` returns `(true, [])` exactly when every
required field of the template type is present in the mapping with a
non-null source column; otherwise it returns `false` together with the
exact list of required fields that are absent or unmapped (in
required-list order); the Scenario-D `AP_OpenItems` mapping lacking only
`amount` yields `(false, ["amount"])`. -/
theorem validate_mappings_spec (m : List (String × Option String)) (tt : String) :
    ((validate_mappings m tt).1 = true ↔ (validate_mappings m tt).2 = []) ∧
    ((validate_mappings m tt).1 = true ↔
      ∀ c ∈ get_required_columns tt, ∃ s, m.lookup c = some (some s)) ∧
    (validate_mappings m tt).2
      = (get_required_columns tt).filter (isUnmapped m) ∧
    validate_mappings apScenarioMapping "AP_OpenItems" = (false, ["amount"]) := by
  refine ⟨?_, ?_, rfl, by decide⟩
  · unfold validate_mappings
    simp [List.isEmpty_iff]
  · unfold validate_mappings
    simp only [List.isEmpty_iff, List.filter_eq_nil_iff]
    constructor
    · intro h c hc
      have := h c hc
      rw [← isUnmapped_eq_false_iff]
      simpa using this
    · intro h c hc
      have := (isUnmapped_eq_false_iff m c).mpr (h c hc)
      simp [this]

lemma mapColumnsAux_map_fst (source_columns : List String) :
    ∀ (schema : List (String × List String)) (used : List String),
      (mapColumnsAux source_columns schema used).map Prod.fst
        = schema.map Prod.fst := by
  intro schema
  induction schema with
  | nil => intro used; simp [mapColumnsAux]
  | cons fp rest ih =>
    intro used
    obtain ⟨f, p⟩ := fp
    cases hacc : acceptField source_columns used p <;>
      simp [mapColumnsAux, hacc, ih]

/-- C8: for every known template type, the mapping returned by
`map_columns` has an entry for every canonical field of the schema (in
schema order, unmapped fields carrying `None` rather than being
omitted), and `get_mapping_confidence` is the mapped-field count divided
by the schema size, so it equals `1.0` exactly when every canonical
field is mapped. -/
theorem map_columns_schema_total_confidence (source_columns : List String)
    (template_type : String) (schema : List (String × List String))
    (hschema : TEMPLATE_SCHEMAS.lookup template_type = some schema) :
    (map_columns source_columns template_type).map Prod.fst
      = schema.map Prod.fst ∧
    get_mapping_confidence (map_columns source_columns template_type)
      = ((map_columns source_columns template_type).countP
          (fun p => p.2.isSome) : ℚ) / (schema.length : ℚ) ∧
    (get_mapping_confidence (map_columns source_columns template_type) = 1 ↔
      ∀ p ∈ map_columns source_columns template_type, p.2 ≠ none) := by
  have hkeys : (map_columns source_columns template_type).map Prod.fst
      = schema.map Prod.fst := by
    unfold map_columns
    rw [hschema]
    exact mapColumnsAux_map_fst source_columns schema []
  have hlen : (map_columns source_columns template_type).length = schema.length := by
    have := congrArg List.length hkeys
    simpa using this
  have hne : schema ≠ [] := by
    have hv := lookup_mem_map_snd TEMPLATE_SCHEMAS template_type schema hschema
    have hall : ∀ v ∈ TEMPLATE_SCHEMAS.map Prod.snd, v ≠ [] := by decide
    exact hall _ hv
  have hmne : map_columns source_columns template_type ≠ [] := by
    intro h0
    rw [h0] at hlen
    exact hne (List.length_eq_zero.mp hlen.symm)
  have hconf : get_mapping_confidence (map_columns source_columns template_type)
      = ((map_columns source_columns template_type).countP
          (fun p => p.2.isSome) : ℚ) / (schema.length : ℚ) := by
    unfold get_mapping_confidence
    rw [if_neg hmne, hlen]
  refine ⟨hkeys, hconf, ?_⟩
  rw [hconf]
  have hlenpos : 0 < schema.length := List.length_pos.mpr hne
  have hq : ((schema.length : ℚ)) ≠ 0 := by
    exact_mod_cast Nat.pos_iff_ne_zero.mp hlenpos
  rw [div_eq_one_iff_eq hq]
  rw [Nat.cast_inj]
  rw [← hlen]
  rw [List.countP_eq_length]
  constructor
  · intro h p hp
    have := h p hp
    simp only [Option.isSome_iff_ne_none] at this
    exact this
  · intro h p hp
    simp only [Option.isSome_iff_ne_none]
    exact h p hp

/-- Witness for C8 at a concrete input: the `TrialBalance` schema keys
appear in order even when only one source column is offered. -/
theorem map_columns_schema_total_confidence_witness :
    (map_columns ["Debit"] "TrialBalance").map Prod.fst
      = ["account_code", "account_name", "debit_amount", "credit_amount",
         "balance"] := by
  have h := map_columns_schema_total_confidence ["Debit"] "TrialBalance" _ rfl
  exact h.1.trans (by decide)

/-- C10: a template type string outside the known catalog gives the empty
mapping, zero confidence, an empty required-column list, and hence a
vacuously valid `validate_mappings` result. -/
theorem unknown_template_type_spec (template_type : String)
    (source_columns : List String)
    (h : template_type ∉ TEMPLATE_SCHEMAS.map Prod.fst) :
    map_columns source_columns template_type = [] ∧
    get_mapping_confidence (map_columns source_columns template_type) = 0 ∧
    get_required_columns template_type = [] ∧
    validate_mappings (map_columns source_columns template_type) template_type
      = (true, []) := by
  have h1 : TEMPLATE_SCHEMAS.lookup template_type = none :=
    lookup_eq_none_of_not_mem _ _ h
  have h2 : REQUIRED_COLUMNS.lookup template_type = none := by
    apply lookup_eq_none_of_not_mem
    have hsame : REQUIRED_COLUMNS.map Prod.fst = TEMPLATE_SCHEMAS.map Prod.fst := by
      decide
    rw [hsame]
    exact h
  have hm : map_columns source_columns template_type = [] := by
    unfold map_columns
    rw [h1]
  have hr : get_required_columns template_type = [] := by
    unfold get_required_columns
    rw [h2]
    rfl
  refine ⟨hm, ?_, hr, ?_⟩
  · rw [hm]
    rfl
  · rw [hm]
    unfold validate_mappings
    rw [hr]
    rfl

/-- Witness for C10 at the concrete unknown type `"GeneralLedger"`. -/
theorem unknown_template_type_spec_witness :
    map_columns ["Date"] "GeneralLedger" = [] ∧
    get_mapping_confidence (map_columns ["Date"] "GeneralLedger") = 0 ∧
    get_required_columns "GeneralLedger" = [] ∧
    validate_mappings (map_columns ["Date"] "GeneralLedger") "GeneralLedger"
      = (true, []) :=
  unknown_template_type_spec "GeneralLedger" ["Date"] (by decide)

end ColumnMapper

lemma add_check_checks (r : DQValidationResult) (n s : String) :
    (r.add_check n s).checks = updateCheck r.checks n s := by
  unfold DQValidationResult.add_check
  split_ifs <;> rfl

lemma add_check_status (r : DQValidationResult) (n s : String) :
    (r.add_check n s).status = stepStatus r.status s := by
  unfold DQValidationResult.add_check stepStatus
  by_cases hf : s = "failed"
  · simp [hf]
  · rw [if_neg hf, if_neg hf]
    by_cases hw : s = "warning"
    · by_cases hp : r.status = "passed"
      · have hnf : r.status ≠ "failed" := by
          rw [hp]
          decide
        rw [if_pos (And.intro hw hnf), if_pos (And.intro hw hp), if_pos hp]
      · by_cases hnf : r.status = "failed"
        · rw [if_neg (fun hc => hc.2 hnf), if_neg (fun hc => hp hc.2)]
        · rw [if_pos (And.intro hw hnf), if_neg hp, if_neg (fun hc => hp hc.2)]
    · rw [if_neg (fun hc => hw hc.1), if_neg (fun hc => hw hc.1)]

lemma foldl_add_check_status :
    ∀ (seq : List (String × String)) (r : DQValidationResult),
      (seq.foldl (fun r p => r.add_check p.1 p.2) r).status
        = seq.foldl (fun s0 p => stepStatus s0 p.2) r.status := by
  intro seq
  induction seq with
  | nil => intro r; rfl
  | cons p rest ih =>
    intro r
    rw [List.foldl_cons, List.foldl_cons, ih, add_check_status]

lemma stepStatus_fold_spec :
    ∀ (seq : List (String × String)),
      seq.foldl (fun s0 p => stepStatus s0 p.2) "passed" = specStatus seq ∧
      seq.foldl (fun s0 p => stepStatus s0 p.2) "warning"
        = (if seq.any (fun p => p.2 == "failed") then "failed" else "warning") ∧
      seq.foldl (fun s0 p => stepStatus s0 p.2) "failed" = "failed" := by
  intro seq
  induction seq with
  | nil => refine ⟨rfl, rfl, rfl⟩
  | cons p rest ih =>
    obtain ⟨ih1, ih2, ih3⟩ := ih
    simp only [List.foldl_cons]
    by_cases hf : p.2 = "failed"
    · have e1 : stepStatus "passed" p.2 = "failed" := by rw [hf]; decide
      have e2 : stepStatus "warning" p.2 = "failed" := by rw [hf]; decide
      have e3 : stepStatus "failed" p.2 = "failed" := by rw [hf]; decide
      rw [e1, e2, e3]
      refine ⟨?_, ?_, ih3⟩
      · rw [ih3]
        unfold specStatus
        simp [List.any_cons, hf]
      · rw [ih3]
        simp [List.any_cons, hf]
    · by_cases hw : p.2 = "warning"
      · have e1 : stepStatus "passed" p.2 = "warning" := by rw [hw]; decide
        have e2 : stepStatus "warning" p.2 = "warning" := by rw [hw]; decide
        have e3 : stepStatus "failed" p.2 = "failed" := by rw [hw]; decide
        have hbf : (p.2 == "failed") = false := by
          rw [hw]
          decide
        have hbw : (p.2 == "warning") = true := by
          rw [hw]
          decide
        rw [e1, e2, e3]
        refine ⟨?_, ?_, ih3⟩
        · rw [ih2]
          unfold specStatus
          rw [List.any_cons, List.any_cons, hbf, Bool.false_or, hbw, Bool.true_or]
          by_cases hr : rest.any (fun q => q.2 == "failed") = true
          · rw [if_pos hr, if_pos hr]
          · rw [if_neg hr, if_neg hr, if_pos rfl]
        · rw [ih2, List.any_cons, hbf, Bool.false_or]
      · have hnw : ¬ (p.2 = "warning" ∧ "passed" = "passed") := fun hc => hw hc.1
        have e1 : stepStatus "passed" p.2 = "passed" := by
          unfold stepStatus
          rw [if_neg hf, if_neg hnw]
        have e2 : stepStatus "warning" p.2 = "warning" := by
          unfold stepStatus
          rw [if_neg hf, if_neg (fun hc => hw hc.1)]
        have e3 : stepStatus "failed" p.2 = "failed" := by
          unfold stepStatus
          rw [if_neg hf, if_neg (fun hc => hw hc.1)]
        have hbf : (p.2 == "failed") = false := beq_eq_false_iff_ne.mpr hf
        have hbw : (p.2 == "warning") = false := beq_eq_false_iff_ne.mpr hw
        rw [e1, e2, e3]
        refine ⟨?_, ?_, ih3⟩
        · rw [ih1]
          unfold specStatus
          rw [List.any_cons, List.any_cons, hbf, Bool.false_or, hbw, Bool.false_or]
        · rw [ih2, List.any_cons, hbf, Bool.false_or]

lemma updateCheck_append (cs : List (String × String)) (n s : String)
    (h : cs.any (fun p => p.1 == n) = false) :
    updateCheck cs n s = cs ++ [(n, s)] := by
  unfold updateCheck
  rw [if_neg (by simp [h])]

lemma foldl_add_check_checks :
    ∀ (seq : List (String × String)) (r : DQValidationResult),
      (∀ n ∈ seq.map Prod.fst, r.checks.any (fun p => p.1 == n) = false) →
      (seq.map Prod.fst).Nodup →
      (seq.foldl (fun r p => r.add_check p.1 p.2) r).checks = r.checks ++ seq := by
  intro seq
  induction seq with
  | nil => intro r _ _; simp
  | cons p rest ih =>
    intro r hfresh hnodup
    obtain ⟨n, s⟩ := p
    rw [List.foldl_cons]
    have hn : r.checks.any (fun q => q.1 == n) = false :=
      hfresh n (by simp)
    have hchecks : (r.add_check n s).checks = r.checks ++ [(n, s)] := by
      rw [add_check_checks, updateCheck_append _ _ _ hn]
    rw [List.map_cons] at hnodup
    have hhead : n ∉ rest.map Prod.fst := (List.nodup_cons.mp hnodup).1
    have hnodup' : (rest.map Prod.fst).Nodup := (List.nodup_cons.mp hnodup).2
    have hfresh' : ∀ m ∈ rest.map Prod.fst,
        (r.add_check n s).checks.any (fun p => p.1 == m) = false := by
      intro m hm
      rw [hchecks]
      have h1 : r.checks.any (fun p => p.1 == m) = false := by
        refine hfresh m ?_
        rw [List.map_cons]
        exact List.mem_cons_of_mem _ hm
      have h2 : n ≠ m := fun he => hhead (he ▸ hm)
      simp only [List.any_append, h1, Bool.false_or, List.any_cons, List.any_nil]
      simp [h2]
    rw [ih (r.add_check n s) hfresh' hnodup', hchecks]
    simp

lemma specStatus_eq_failed_iff (seq : List (String × String)) :
    specStatus seq = "failed" ↔ seq.any (fun p => p.2 == "failed") = true := by
  unfold specStatus
  by_cases h1 : seq.any (fun p => p.2 == "failed") = true
  · rw [if_pos h1]
    exact ⟨fun _ => h1, fun _ => rfl⟩
  · rw [if_neg h1]
    by_cases h2 : seq.any (fun p => p.2 == "warning") = true
    · rw [if_pos h2]
      exact ⟨fun hc => absurd hc (by decide), fun hc => absurd hc h1⟩
    · rw [if_neg h2]
      exact ⟨fun hc => absurd hc (by decide), fun hc => absurd hc h1⟩

lemma specStatus_eq_warning_iff (seq : List (String × String)) :
    specStatus seq = "warning" ↔
      (seq.any (fun p => p.2 == "failed") = false ∧
        seq.any (fun p => p.2 == "warning") = true) := by
  unfold specStatus
  by_cases h1 : seq.any (fun p => p.2 == "failed") = true
  · rw [if_pos h1]
    refine ⟨fun hc => absurd hc (by decide), fun hc => ?_⟩
    rw [hc.1] at h1
    exact absurd h1 (by decide)
  · have h1f : seq.any (fun p => p.2 == "failed") = false :=
      Bool.eq_false_iff.mpr h1
    rw [if_neg h1]
    by_cases h2 : seq.any (fun p => p.2 == "warning") = true
    · rw [if_pos h2]
      exact ⟨fun _ => ⟨h1f, h2⟩, fun _ => rfl⟩
    · rw [if_neg h2]
      exact ⟨fun hc => absurd hc (by decide), fun hc => absurd hc.2 h2⟩

lemma runChecks_status_spec (seq : List (String × String)) :
    (runChecks seq).status = specStatus seq := by
  rw [runChecks, foldl_add_check_status]
  exact (stepStatus_fold_spec seq).1

lemma specStatus_rank_mono (pre suf : List (String × String)) :
    statusRank (specStatus pre) ≤ statusRank (specStatus (pre ++ suf)) := by
  unfold specStatus statusRank
  simp only [List.any_append]
  by_cases h1 : pre.any (fun p => p.2 == "failed") = true <;>
    by_cases h2 : suf.any (fun p => p.2 == "failed") = true <;>
      by_cases h3 : pre.any (fun p => p.2 == "warning") = true <;>
        by_cases h4 : suf.any (fun p => p.2 == "warning") = true <;>
          simp [h1, h2, h3, h4]

/-- C3 counterexample: calling `add_check` twice with the same check name
(first `failed`, then `passed`) overwrites the stored check but leaves
the overall status `failed`, so the report's status is `failed` although
no check stored in the report is `failed` — the claimed equivalence over
arbitrary `add_check` sequences fails. -/
theorem dq_status_duplicate_name_counterexample :
    (runChecks [("a", "failed"), ("a", "passed")]).status = "failed" ∧
    (runChecks [("a", "failed"), ("a", "passed")]).checks = [("a", "passed")] ∧
    ∀ c ∈ (runChecks [("a", "failed"), ("a", "passed")]).checks,
      c.2 ≠ "failed" := by
  refine ⟨rfl, rfl, by decide⟩

/-- C3 (amended): for a report produced by a sequence of `add_check`
calls with pairwise distinct check names (as `validate_dataset` always
does), the overall status is `failed` iff some check failed, `warning`
iff no check failed and some check warned, and `passed` otherwise; and
along any prefix of the calls the status only escalates
(`passed < warning < failed`). -/
theorem dq_status_characterization (seq : List (String × String))
    (h : (seq.map Prod.fst).Nodup) :
    ((runChecks seq).status = "failed" ↔
      ∃ c ∈ (runChecks seq).checks, c.2 = "failed") ∧
    ((runChecks seq).status = "warning" ↔
      ((¬ ∃ c ∈ (runChecks seq).checks, c.2 = "failed") ∧
        ∃ c ∈ (runChecks seq).checks, c.2 = "warning")) ∧
    ((runChecks seq).status ≠ "failed" → (runChecks seq).status ≠ "warning" →
      (runChecks seq).status = "passed") ∧
    ∀ pre suf, seq = pre ++ suf →
      statusRank (runChecks pre).status ≤ statusRank (runChecks seq).status := by
  have hchecks : (runChecks seq).checks = seq := by
    have := foldl_add_check_checks seq initResult (by simp [initResult]) h
    simpa [runChecks, initResult] using this
  have hex : (seq.any (fun p => p.2 == "failed") = true) ↔
      (∃ c ∈ seq, c.2 = "failed") := by
    rw [List.any_eq_true]
    constructor
    · rintro ⟨c, hc, hb⟩
      exact ⟨c, hc, by simpa using hb⟩
    · rintro ⟨c, hc, hb⟩
      exact ⟨c, hc, by simpa using hb⟩
  have hexw : (seq.any (fun p => p.2 == "warning") = true) ↔
      (∃ c ∈ seq, c.2 = "warning") := by
    rw [List.any_eq_true]
    constructor
    · rintro ⟨c, hc, hb⟩
      exact ⟨c, hc, by simpa using hb⟩
    · rintro ⟨c, hc, hb⟩
      exact ⟨c, hc, by simpa using hb⟩
  have hexne : (seq.any (fun p => p.2 == "failed") = false) ↔
      (¬ ∃ c ∈ seq, c.2 = "failed") := by
    rw [← hex]
    cases seq.any (fun p => p.2 == "failed") <;> simp
  refine ⟨?_, ?_, ?_, ?_⟩
  · rw [runChecks_status_spec, hchecks]
    exact (specStatus_eq_failed_iff seq).trans hex
  · rw [runChecks_status_spec, hchecks]
    exact (specStatus_eq_warning_iff seq).trans (and_congr hexne hexw)
  · rw [runChecks_status_spec]
    unfold specStatus
    intro hnf hnw
    by_cases h1 : seq.any (fun p => p.2 == "failed") = true
    · rw [if_pos h1] at hnf
      exact absurd rfl hnf
    · rw [if_neg h1] at hnf hnw ⊢
      by_cases h2 : seq.any (fun p => p.2 == "warning") = true
      · rw [if_pos h2] at hnw
        exact absurd rfl hnw
      · rw [if_neg h2]
  · intro pre suf hsplit
    rw [runChecks_status_spec, runChecks_status_spec, hsplit]
    exact specStatus_rank_mono pre suf

/-- Witness for C3 at a concrete call sequence with distinct names. -/
theorem dq_status_characterization_witness :
    (runChecks [("required_columns", "failed"), ("row_count", "warning")]).status
      = "failed" := by
  have h := dq_status_characterization
    [("required_columns", "failed"), ("row_count", "warning")] (by decide)
  exact h.1.mpr ⟨("required_columns", "failed"), by decide, rfl⟩

lemma maxQ_le_left (a b : ℚ) : a ≤ maxQ a b := by
  unfold maxQ
  split_ifs with h
  · exact h
  · exact le_refl a

lemma le_foldl_maxQ (l : List ℚ) : ∀ init : ℚ, init ≤ l.foldl maxQ init := by
  induction l with
  | nil => intro init; exact le_refl _
  | cons x xs ih =>
    intro init
    rw [List.foldl_cons]
    exact le_trans (maxQ_le_left init x) (ih (maxQ init x))

lemma maxBySnd_snd :
    ∀ (l : List (String × ℚ)) (x : String × ℚ),
      (TemplateDetector.maxBySnd x l).2 = (l.map Prod.snd).foldl maxQ x.2 := by
  intro l
  induction l with
  | nil => intro x; rfl
  | cons y ys ih =>
    intro x
    rw [List.map_cons, List.foldl_cons]
    show (TemplateDetector.maxBySnd (if x.2 < y.2 then y else x) ys).2
      = (ys.map Prod.snd).foldl maxQ (maxQ x.2 y.2)
    rw [ih]
    congr 1
    unfold maxQ
    rcases lt_or_ge x.2 y.2 with h | h
    · rw [if_pos h, if_pos (le_of_lt h)]
    · rw [if_neg (not_lt.mpr h)]
      rcases eq_or_lt_of_le h with he | hlt
      · rw [if_pos (le_of_eq he.symm)]
        exact he.symm
      · rw [if_neg (not_le.mpr hlt)]

lemma maxBySnd_le (l : List (String × ℚ)) (x : String × ℚ) :
    x.2 ≤ (TemplateDetector.maxBySnd x l).2 := by
  rw [maxBySnd_snd]
  exact le_foldl_maxQ _ _

lemma maxBySnd_find :
    ∀ (l : List (String × ℚ)) (x : String × ℚ),
      (x :: l).find? (fun y => y.2 == (TemplateDetector.maxBySnd x l).2)
        = some (TemplateDetector.maxBySnd x l) := by
  intro l
  induction l with
  | nil =>
    intro x
    show [x].find? (fun y => y.2 == x.2) = some x
    rw [List.find?_cons_of_pos _ (by simp)]
  | cons y ys ih =>
    intro x
    show (x :: y :: ys).find?
        (fun z => z.2 == (TemplateDetector.maxBySnd (if x.2 < y.2 then y else x) ys).2)
      = some (TemplateDetector.maxBySnd (if x.2 < y.2 then y else x) ys)
    by_cases hxy : x.2 < y.2
    · rw [if_pos hxy]
      have hylev : y.2 ≤ (TemplateDetector.maxBySnd y ys).2 := maxBySnd_le ys y
      have hxne : (x.2 == (TemplateDetector.maxBySnd y ys).2) = false := by
        rw [beq_eq_false_iff_ne]
        exact ne_of_lt (lt_of_lt_of_le hxy hylev)
      rw [List.find?_cons_of_neg _ (by simp [hxne])]
      exact ih y
    · rw [if_neg hxy]
      have hyx : y.2 ≤ x.2 := le_of_not_lt hxy
      have hxle : x.2 ≤ (TemplateDetector.maxBySnd x ys).2 := maxBySnd_le ys x
      by_cases hpx : x.2 = (TemplateDetector.maxBySnd x ys).2
      · have hfound := ih x
        rw [List.find?_cons_of_pos _ (by simp [hpx])] at hfound
        have hx : x = TemplateDetector.maxBySnd x ys := by
          simpa using hfound
        rw [List.find?_cons_of_pos _ (by simp [hpx])]
        rw [← hx]
      · have hxlt : x.2 < (TemplateDetector.maxBySnd x ys).2 :=
          lt_of_le_of_ne hxle hpx
        have hfound := ih x
        rw [List.find?_cons_of_neg _ (by simp [hpx])] at hfound
        have hyne : (y.2 == (TemplateDetector.maxBySnd x ys).2) = false := by
          rw [beq_eq_false_iff_ne]
          exact ne_of_lt (lt_of_le_of_lt hyx hxlt)
        rw [List.find?_cons_of_neg _ (by simp [hpx]),
            List.find?_cons_of_neg _ (by simp [hyne])]
        exact hfound

/-- C1: for every non-empty table the detector computes all five
template-type scores (in declaration order BankStatement, TrialBalance,
AP_OpenItems, AR_Aging, POS_Sales) and, when the maximum score reaches
the 0.3 threshold, returns the first-declared type achieving that
maximum together with the maximum score; when the maximum is below 0.3
it returns no type (with confidence 0.0). -/
theorem detect_argmax_threshold (t : Table)
    (hrows : t.rows ≠ []) (hcols : t.headers ≠ []) :
    (TemplateDetector.maxScore t < 3 / 10 →
      TemplateDetector.detect_from_dataframe t = (none, 0)) ∧
    (3 / 10 ≤ TemplateDetector.maxScore t →
      ∃ ty, (TemplateDetector.scoresList t).find?
          (fun p => p.2 == TemplateDetector.maxScore t)
          = some (ty, TemplateDetector.maxScore t) ∧
        TemplateDetector.detect_from_dataframe t
          = (some ty, TemplateDetector.maxScore t)) := by
  have hguard : ¬ (t.rows.length = 0 ∨ t.headers.length = 0) := by
    rintro (h | h)
    · exact hrows (List.length_eq_zero.mp h)
    · exact hcols (List.length_eq_zero.mp h)
  obtain ⟨hd, tl, hsl⟩ : ∃ hd tl, TemplateDetector.scoresList t = hd :: tl :=
    ⟨_, _, rfl⟩
  have hms : TemplateDetector.maxScore t
      = (TemplateDetector.maxBySnd hd tl).2 := by
    rw [maxBySnd_snd]
    unfold TemplateDetector.maxScore
    rw [hsl]
  have hdet : TemplateDetector.detect_from_dataframe t
      = (if (TemplateDetector.maxBySnd hd tl).2 < 3 / 10 then (none, 0)
         else (some (TemplateDetector.maxBySnd hd tl).1,
           (TemplateDetector.maxBySnd hd tl).2)) := by
    unfold TemplateDetector.detect_from_dataframe
    rw [if_neg hguard, hsl]
  constructor
  · intro hlt
    rw [hdet, if_pos (hms ▸ hlt)]
  · intro hge
    have hnot : ¬ (TemplateDetector.maxBySnd hd tl).2 < 3 / 10 :=
      not_lt.mpr (hms ▸ hge)
    refine ⟨(TemplateDetector.maxBySnd hd tl).1, ?_, ?_⟩
    · rw [hsl, hms]
      exact maxBySnd_find tl hd
    · rw [hdet, if_neg hnot, hms]

/-- Witness for C1 at a concrete non-empty table: a single text column
scores at most 0.25 on every type, so the detector reports no match. -/
theorem detect_argmax_threshold_witness :
    TemplateDetector.detect_from_dataframe ⟨["A"], [[Cell.text "x"]]⟩
      = (none, 0) := by
  have h := detect_argmax_threshold ⟨["A"], [[Cell.text "x"]]⟩
    (by decide) (by decide)
  exact h.1 (by with_unfolding_all decide)

/-- C6 counterexample: a sheet read as one column with a single entirely
empty row is not empty as read (`df.empty` is checked before the empty
rows are dropped), so `_parse_excel` succeeds and returns a zero-row
table instead of raising a ParseError; the detector then reports no
match on that zero-row table. -/
theorem parse_excel_all_empty_rows_counterexample :
    FileParser.parse_excel ⟨["A "], [[Cell.null]]⟩ = Except.ok ⟨["A"], []⟩ ∧
    TemplateDetector.detect_from_dataframe ⟨["A"], []⟩ = (none, 0) := by
  exact ⟨rfl, rfl⟩

/-- C6 (amended): the Excel parser trims column-header whitespace and
drops entirely empty rows; it fails with a ParseError exactly when the
table as read is empty (zero rows or zero columns) — a sheet whose data
rows are all entirely empty is returned as a zero-row table rather than
rejected — and the detector returns no match, with confidence 0.0, on
any zero-row table. -/
theorem parse_excel_characterization (t : Table) :
    (FileParser.parse_excel t = Except.error "Excel file is empty" ↔
      (t.rows = [] ∨ t.headers = [])) ∧
    (t.rows ≠ [] → t.headers ≠ [] →
      FileParser.parse_excel t = Except.ok (FileParser.cleanTable t) ∧
      (FileParser.cleanTable t).headers
        = t.headers.map (fun h => String.mk (ColumnMapper.stripChars h.data)) ∧
      ∀ r ∈ (FileParser.cleanTable t).rows, FileParser.rowAllNull r = false) ∧
    (∀ hs : List String,
      TemplateDetector.detect_from_dataframe ⟨hs, []⟩ = (none, 0)) := by
  refine ⟨?_, ?_, ?_⟩
  · unfold FileParser.parse_excel
    by_cases hguard : t.rows.length = 0 ∨ t.headers.length = 0
    · rw [if_pos hguard]
      constructor
      · intro _
        rcases hguard with h | h
        · exact Or.inl (List.length_eq_zero.mp h)
        · exact Or.inr (List.length_eq_zero.mp h)
      · intro _
        rfl
    · rw [if_neg hguard]
      constructor
      · intro h
        exact absurd h (by simp)
      · intro h
        rcases h with h | h
        · exact absurd (Or.inl (by rw [h]; rfl)) hguard
        · exact absurd (Or.inr (by rw [h]; rfl)) hguard
  · intro hrows hcols
    have hguard : ¬ (t.rows.length = 0 ∨ t.headers.length = 0) := by
      rintro (h | h)
      · exact hrows (List.length_eq_zero.mp h)
      · exact hcols (List.length_eq_zero.mp h)
    refine ⟨?_, rfl, ?_⟩
    · unfold FileParser.parse_excel
      rw [if_neg hguard]
    · intro r hr
      have := List.of_mem_filter hr
      simpa using this
  · intro hs
    unfold TemplateDetector.detect_from_dataframe
    have hz : (({ headers := hs, rows := [] } : Table).rows.length = 0 ∨
        ({ headers := hs, rows := [] } : Table).headers.length = 0) := Or.inl rfl
    rw [if_pos hz]

/-- Witness for C6 at a concrete table with one real row and one empty
row: the header is trimmed and the empty row dropped. -/
theorem parse_excel_characterization_witness :
    FileParser.parse_excel ⟨[" B"], [[Cell.text "v"], [Cell.null]]⟩
      = Except.ok ⟨["B"], [[Cell.text "v"]]⟩ := by
  have h := parse_excel_characterization ⟨[" B"], [[Cell.text "v"], [Cell.null]]⟩
  rw [(h.2.1 (by decide) (by decide)).1]
  rfl

lemma tryDelimiters_cons (lines : List String) (d : Char) (ds : List Char) :
    FileParser.tryDelimiters lines (d :: ds)
      = match FileParser.acceptDelim lines d with
        | some t => Except.ok t
        | none => FileParser.tryDelimiters lines ds := by
  unfold FileParser.acceptDelim
  show (match FileParser.readCsv lines d with
    | none => FileParser.tryDelimiters lines ds
    | some t =>
      if 1 < t.headers.length then
        if (FileParser.cleanTable t).rows ≠ [] then
          Except.ok (FileParser.cleanTable t)
        else FileParser.tryDelimiters lines ds
      else FileParser.tryDelimiters lines ds) = _
  cases hrc : FileParser.readCsv lines d with
  | none => rfl
  | some t =>
    show (if 1 < t.headers.length then
        if (FileParser.cleanTable t).rows ≠ [] then
          Except.ok (FileParser.cleanTable t)
        else FileParser.tryDelimiters lines ds
      else FileParser.tryDelimiters lines ds)
      = match (if 1 < t.headers.length ∧ (FileParser.cleanTable t).rows ≠ []
            then some (FileParser.cleanTable t) else none) with
        | some t => Except.ok t
        | none => FileParser.tryDelimiters lines ds
    by_cases h1 : 1 < t.headers.length
    · by_cases h2 : (FileParser.cleanTable t).rows ≠ []
      · rw [if_pos h1, if_pos h2, if_pos (And.intro h1 h2)]
      · rw [if_pos h1, if_neg h2, if_neg (fun hc => h2 hc.2)]
    · rw [if_neg h1, if_neg (fun hc => h1 hc.1)]

lemma tryDelimiters_ok_iff (lines : List String) :
    ∀ (ds : List Char) (tbl : Table),
      FileParser.tryDelimiters lines ds = Except.ok tbl ↔
        ∃ pre d post, ds = pre ++ d :: post ∧
          FileParser.acceptDelim lines d = some tbl ∧
          ∀ d' ∈ pre, FileParser.acceptDelim lines d' = none := by
  intro ds
  induction ds with
  | nil =>
    intro tbl
    constructor
    · intro h
      exact absurd h (by simp [FileParser.tryDelimiters])
    · rintro ⟨pre, d, post, hsplit, -, -⟩
      exact absurd hsplit (by simp)
  | cons d ds ih =>
    intro tbl
    rw [tryDelimiters_cons]
    cases hacc : FileParser.acceptDelim lines d with
    | some t0 =>
      constructor
      · intro h
        have ht : t0 = tbl := by simpa using h
        refine ⟨[], d, ds, rfl, by rw [hacc, ht], ?_⟩
        intro d' hd'
        simp at hd'
      · rintro ⟨pre, d', post, hsplit, hacc', hpre⟩
        cases pre with
        | nil =>
          rw [List.nil_append, List.cons.injEq] at hsplit
          obtain ⟨h1, -⟩ := hsplit
          subst h1
          rw [hacc] at hacc'
          have ht : t0 = tbl := by simpa using hacc'
          rw [ht]
        | cons e pre' =>
          rw [List.cons_append, List.cons.injEq] at hsplit
          obtain ⟨h1, -⟩ := hsplit
          subst h1
          have := hpre d (List.mem_cons_self d pre')
          rw [hacc] at this
          exact absurd this (by simp)
    | none =>
      rw [ih tbl]
      constructor
      · rintro ⟨pre, d', post, hsplit, hacc', hpre⟩
        refine ⟨d :: pre, d', post, by rw [hsplit, List.cons_append], hacc', ?_⟩
        intro x hx
        rcases List.mem_cons.mp hx with hx' | hx'
        · rw [hx']
          exact hacc
        · exact hpre x hx'
      · rintro ⟨pre, d', post, hsplit, hacc', hpre⟩
        cases pre with
        | nil =>
          rw [List.nil_append, List.cons.injEq] at hsplit
          obtain ⟨h1, -⟩ := hsplit
          subst h1
          rw [hacc] at hacc'
          exact absurd hacc' (by simp)
        | cons e pre' =>
          rw [List.cons_append, List.cons.injEq] at hsplit
          obtain ⟨h1, h2⟩ := hsplit
          exact ⟨pre', d', post, h2, hacc',
            fun x hx => hpre x (List.mem_cons_of_mem _ hx)⟩

lemma tryDelimiters_error_iff (lines : List String) :
    ∀ (ds : List Char),
      FileParser.tryDelimiters lines ds
          = Except.error "Could not parse CSV file" ↔
        ∀ d ∈ ds, FileParser.acceptDelim lines d = none := by
  intro ds
  induction ds with
  | nil =>
    constructor
    · intro _ d hd
      simp at hd
    · intro _
      rfl
  | cons d ds ih =>
    rw [tryDelimiters_cons]
    cases hacc : FileParser.acceptDelim lines d with
    | some t0 =>
      constructor
      · intro h
        exact absurd h (by simp)
      · intro h
        have := h d (List.mem_cons_self d ds)
        rw [hacc] at this
        exact absurd this (by simp)
    | none =>
      rw [ih]
      constructor
      · intro h x hx
        rcases List.mem_cons.mp hx with hx' | hx'
        · rw [hx']
          exact hacc
        · exact h x hx'
      · intro h x hx
        exact h x (List.mem_cons_of_mem _ hx)

/-- C9: `_parse_csv` attempts the delimiters in the fixed order comma,
semicolon, tab, pipe, and returns the cleaned table of the first
delimiter that yields more than one column and at least one non-empty
row after header trimming and empty-row removal; when no delimiter is
accepted it fails with a ParseError. -/
theorem parse_csv_delimiter_order_spec (lines : List String) :
    (∀ tbl, FileParser.parse_csv lines = Except.ok tbl ↔
      ∃ pre d post, FileParser.csvDelimiters = pre ++ d :: post ∧
        FileParser.acceptDelim lines d = some tbl ∧
        ∀ d' ∈ pre, FileParser.acceptDelim lines d' = none) ∧
    (FileParser.parse_csv lines = Except.error "Could not parse CSV file" ↔
      ∀ d ∈ FileParser.csvDelimiters, FileParser.acceptDelim lines d = none) :=
  ⟨fun tbl => tryDelimiters_ok_iff lines FileParser.csvDelimiters tbl,
   tryDelimiters_error_iff lines FileParser.csvDelimiters⟩

/-- C4: evaluating `validate_dataset` at the failing input shows that
`error_count` does equal the number of failed checks, but
`warning_count` is `0` while the report stores one `warning` check
(`row_count`) — a warning recorded after the overall status has become
`failed` is not counted, so the tallies are not derived from the checks. -/
theorem dq_warning_count_not_derived :
    (DQValidator.validate_dataset c4Table "BankStatement" c4Mappings).error_count
      = ((DQValidator.validate_dataset c4Table "BankStatement"
          c4Mappings).checks.filter (fun c => c.2 == "failed")).length ∧
    ((DQValidator.validate_dataset c4Table "BankStatement"
        c4Mappings).checks.filter (fun c => c.2 == "warning")).length = 1 ∧
    (DQValidator.validate_dataset c4Table "BankStatement"
        c4Mappings).warning_count = 0 := by
  refine ⟨by with_unfolding_all decide, by with_unfolding_all decide,
    by with_unfolding_all decide⟩

end AgenticCFO
